import Mathlib

/-!
Shallow embedding of the Conflict Detection & Mediation Engine
(src/conflict_detector.rs and src/conflict_mediator.rs).

Conventions of the embedding:
* Rust `f32` scoring arithmetic is embedded as exact rational arithmetic (`ℚ`);
  every constant of the source (0.4, 0.8, 0.3, 0.2, 1.0, …) is an exact
  decimal rational.
* Text is embedded as Lean `String` (a list of characters); character
  classification (`is_alphabetic`, `is_uppercase`, lower-casing) is modelled
  by Lean's ASCII classifiers, matching the Rust semantics on ASCII text.
* The regexes of the source are embedded by explicit recursive functions:
  `[!?]{3,}` as a three-consecutive-characters scan and `[A-Z]{5,}` with
  `find_iter().count()` as a count of maximal uppercase runs of length ≥ 5.
* `Instant` timestamps become integers (seconds); `DashMap`s become
  `String → Option _` maps; the mediator's mutating methods return the new
  state explicitly.
* The random source of `get_mediation_response` becomes an arbitrary `Nat`
  seed `r`, `rng.random_range(0..len)` becoming `r % len`.
-/

namespace MuppetBot

/-- The HOSTILE_KEYWORDS table of src/conflict_detector.rs, verbatim. -/
def HOSTILE_KEYWORDS : List String := [
  -- Intelligence insults
  "stupid", "idiotic", "idiot", "moron", "dumb", "dumbass", "braindead",
  "fool", "foolish", "ignorant", "clueless", "delusional",
  -- Common profanity - F-word variations
  "fuck", "fucking", "fucked", "fucker", "fk", "fck", "fuk", "f*ck",
  "shut the fuck up", "what the fuck", "the fuck",
  -- Common profanity - S-word variations
  "shit", "shitty", "bullshit", "bs", "piece of shit", "full of shit",
  -- Common profanity - other
  "asshole", "a**hole", "bitch", "btch", "damn", "damned",
  "crap", "crappy", "hell", "go to hell",
  -- Dismissive commands
  "shut up", "stfu", "gtfo", "shut it", "shut your mouth",
  "piss off", "screw you", "screw off", "get lost", "buzz off",
  -- Extreme hostility
  "kys", "kill yourself", "kill your",
  -- General insults
  "trash", "garbage", "pathetic", "loser", "clown", "worthless",
  "useless", "incompetent", "disgrace", "embarrassment", "scum",
  "joke", "waste of time", "waste of space",
  -- Quality/value criticisms
  "terrible", "awful", "worst", "disgusting",
  -- Direct hostility
  "hate you", "hate your", "despise",
  -- Correctness attacks
  "wrong", "you're wrong", "completely wrong", "so wrong",
  -- Dismissive responses
  "nobody asked", "didn't ask", "who asked", "who cares", "don't care",
  -- Slurs (ableist)
  "retard", "retarded", "r*tard",
  -- Context-dependent insults
  "toxic", "cancer", "cringe", "cringey", "embarrassing",
  "noob", "scrub"]

/-- Rust `str::to_lowercase`, on ASCII text: lower-case every character. -/
def to_lowercase (s : String) : String := ⟨s.data.map Char.toLower⟩

/-- Whether `needle` occurs at the start of `haystack` (character-wise). -/
def listPrefixOf : List Char → List Char → Bool
  | [], _ => true
  | _ :: _, [] => false
  | a :: as, b :: bs => a == b && listPrefixOf as bs

/-- Rust `str::contains`: `needle` occurs as a contiguous substring of
`haystack` (an empty needle always matches). -/
def containsSub (haystack needle : List Char) : Bool :=
  match haystack with
  | [] => needle.isEmpty
  | _ :: t => listPrefixOf needle haystack || containsSub t needle

/-- Embeds `ConflictDetector::calculate_caps_percentage`: the ratio of
uppercase alphabetic characters to all alphabetic characters, 0 when the
text has no alphabetic character. -/
def calculate_caps_percentage (text : String) : ℚ :=
  let letters := text.data.filter Char.isAlpha
  if letters.isEmpty then 0
  else ((letters.filter Char.isUpper).length : ℚ) / (letters.length : ℚ)

/-- Whether `c` is one of the characters matched by the regex class `[!?]`. -/
def isBangOrQuery (c : Char) : Bool := c == '!' || c == '?'

/-- Embeds `excessive_punctuation.is_match` for the regex `[!?]{3,}`: the
text contains three consecutive characters from `[!?]` (hence a run of
length ≥ 3). -/
def excessive_punctuation_match : List Char → Bool
  | a :: b :: c :: rest =>
    (isBangOrQuery a && isBangOrQuery b && isBangOrQuery c)
      || excessive_punctuation_match (b :: c :: rest)
  | _ => false

/-- Count of maximal runs of uppercase letters of length ≥ 5, continuing a
current run of length `run`: embeds `caps_pattern.find_iter(text).count()`
for the greedy regex `[A-Z]{5,}`. -/
def count_caps_runs : List Char → Nat → Nat
  | [], run => if 5 ≤ run then 1 else 0
  | c :: rest, run =>
    if c.isUpper then count_caps_runs rest (run + 1)
    else (if 5 ≤ run then 1 else 0) + count_caps_runs rest 0

/-- Number of `[A-Z]{5,}` matches in `text`. -/
def caps_pattern_count (text : String) : Nat := count_caps_runs text.data 0

/-- Embeds `ConflictDetector::get_conflict_score`, the per-message hostility
scorer: keyword contribution `min(count * 0.4, 0.8)`, plus 0.3 when the
caps ratio exceeds 0.2, plus 0.2 on a `[!?]{3,}` run, plus 0.2 on two or
more `[A-Z]{5,}` runs, the sum clamped to at most 1. -/
def keyword_count (content : String) : Nat :=
  (HOSTILE_KEYWORDS.filter
    (fun kw => containsSub (to_lowercase content).data kw.data)).length

def get_conflict_score (content : String) : ℚ :=
  let score1 : ℚ := min ((keyword_count content : ℚ) * 0.4) 0.8
  let score2 := score1 + (if calculate_caps_percentage content > 0.2 then (0.3 : ℚ) else 0)
  let score3 := score2 + (if excessive_punctuation_match content.data then (0.2 : ℚ) else 0)
  let score4 := score3 + (if 2 ≤ caps_pattern_count content then (0.2 : ℚ) else 0)
  min score4 1

/-- Unfolded form of the scorer, for calculation. -/
lemma get_conflict_score_def (content : String) :
    get_conflict_score content =
      min (min ((keyword_count content : ℚ) * 0.4) 0.8
        + (if calculate_caps_percentage content > 0.2 then (0.3 : ℚ) else 0)
        + (if excessive_punctuation_match content.data then (0.2 : ℚ) else 0)
        + (if 2 ≤ caps_pattern_count content then (0.2 : ℚ) else 0)) 1 := rfl

/-- The caps ratio at a text with `u` uppercase letters among `n` letters. -/
lemma calculate_caps_percentage_eq (text : String) (u n : Nat)
    (hn : (text.data.filter Char.isAlpha).length = n)
    (hu : ((text.data.filter Char.isAlpha).filter Char.isUpper).length = u)
    (hpos : n ≠ 0) :
    calculate_caps_percentage text = (u : ℚ) / (n : ℚ) := by
  have hne : text.data.filter Char.isAlpha ≠ [] := by
    intro h
    rw [h] at hn
    exact hpos hn.symm
  unfold calculate_caps_percentage
  simp only [List.isEmpty_iff, if_neg hne, hn, hu]

/-- Calculation rule: the score from the four component measurements. -/
lemma get_conflict_score_eval (content : String) (k : Nat) (c p s : Bool)
    (hk : keyword_count content = k)
    (hc : decide (calculate_caps_percentage content > 0.2) = c)
    (hp : excessive_punctuation_match content.data = p)
    (hs : decide (2 ≤ caps_pattern_count content) = s) :
    get_conflict_score content =
      min (min ((k : ℚ) * 0.4) 0.8 + (if c then (0.3 : ℚ) else 0)
        + (if p then (0.2 : ℚ) else 0) + (if s then (0.2 : ℚ) else 0)) 1 := by
  subst hk hp
  rw [get_conflict_score_def, ← hc, ← hs]
  simp only [Bool.decide_iff, decide_eq_true_eq]

example : get_conflict_score "" = 0 := by
  rw [get_conflict_score_eval "" 0 false false false (by decide)
    (by rw [decide_eq_false_iff_not]; unfold calculate_caps_percentage; norm_num)
    (by decide) (by decide)]
  norm_num

example : get_conflict_score "fuck you" = 0.4 := by
  rw [get_conflict_score_eval "fuck you" 1 false false false (by decide)
    (by rw [decide_eq_false_iff_not,
         calculate_caps_percentage_eq "fuck you" 0 7 (by decide) (by decide) (by decide)]
        norm_num)
    (by decide) (by decide)]
  norm_num

/-- A message of the window: `(user_id, content, timestamp)` where the
timestamp is carried as a string, exactly as in the Rust tuple
`(String, String, String)`. -/
structure Msg where
  user_id : String
  content : String
  timestamp : String

/-- An all-ASCII-digit block parsed as a number, `none` when empty or when
some character is not a digit. -/
def digitsVal? (l : List Char) : Option Nat :=
  if l.isEmpty then none
  else
    l.foldl
      (fun acc c =>
        acc.bind (fun n => if c.isDigit then some (n * 10 + (c.toNat - 48)) else none))
      (some 0)

/-- Rust `str::parse::<i64>()`: an optional sign, one or more ASCII digits,
and the value must fit a 64-bit signed integer. -/
def parse_i64 (s : String) : Option Int :=
  match s.data with
  | '+' :: rest =>
    (digitsVal? rest).bind
      (fun n => if n ≤ 9223372036854775807 then some (n : Int) else none)
  | '-' :: rest =>
    (digitsVal? rest).bind
      (fun n => if n ≤ 9223372036854775808 then some (-(n : Int)) else none)
  | l =>
    (digitsVal? l).bind
      (fun n => if n ≤ 9223372036854775807 then some (n : Int) else none)

/-- Embeds `ConflictDetector::detect_rapid_exchange`. The `HashMap` grouping
of the source becomes the list of distinct authors (`dedup`) with
per-author message counts; the count test is symmetric in the two authors,
so the map's iteration order does not matter. -/
def detect_rapid_exchange (messages : List Msg) (time_window_seconds : Int) :
    Option ℚ :=
  if messages.length < 2 then none
  else
    let users := (messages.map Msg.user_id).dedup
    if users.length = 2 then
      let user_a_count :=
        (messages.filter (fun m => m.user_id == users.getD 0 "")).length
      let user_b_count :=
        (messages.filter (fun m => m.user_id == users.getD 1 "")).length
      if 2 ≤ user_a_count ∧ 2 ≤ user_b_count then
        match messages.head?.bind (fun m => parse_i64 m.timestamp),
            messages.getLast?.bind (fun m => parse_i64 m.timestamp) with
        | some first, some last =>
          let duration := last - first
          if duration ≤ time_window_seconds then
            some ((1 - (duration : ℚ) / (time_window_seconds : ℚ)) * 0.6)
          else none
        | _, _ => none
      else none
    else none

/-- Embeds `ConflictDetector::analyze_message_content`: the mean per-message
hostility score. -/
def analyze_message_content (messages : List Msg) : ℚ :=
  (messages.map (fun m => get_conflict_score m.content)).sum
    / (messages.length : ℚ)

/-- Number of adjacent strictly-increasing pairs in a score sequence. -/
def count_increasing : List ℚ → Nat
  | a :: b :: rest => (if a < b then 1 else 0) + count_increasing (b :: rest)
  | _ => 0

/-- Embeds `ConflictDetector::detect_escalation_pattern`. -/
def detect_escalation_pattern (messages : List Msg) : ℚ :=
  if messages.length < 3 then 0
  else
    let scores := messages.map (fun m => get_conflict_score m.content)
    let escalation_ratio :=
      (count_increasing scores : ℚ) / ((scores.length - 1 : Nat) : ℚ)
    if escalation_ratio > 0.5 then escalation_ratio * 0.7 else 0

/-- Embeds `ConflictDetector::detect_heated_argument`, returning the Rust
triple `(is_conflict, confidence, conflict_type)`. -/
def detect_heated_argument (messages : List Msg) (time_window_seconds : Int) :
    Bool × ℚ × String :=
  if messages.length < 1 then (false, 0, "")
  else
    let rapid := detect_rapid_exchange messages time_window_seconds
    let rapid_score := rapid.getD 0
    let reasons1 : List String :=
      match rapid with
      | some s => if s > 0.3 then ["rapid_exchange"] else []
      | none => []
    let content_score := analyze_message_content messages
    let reasons2 :=
      reasons1 ++ (if content_score > 0.4 then ["hostile_language"] else [])
    let escalation_score := detect_escalation_pattern messages
    let reasons3 :=
      reasons2 ++ (if escalation_score > 0.3 then ["escalating_tension"] else [])
    let total_score := rapid_score + content_score + escalation_score
    let confidence := min total_score 1
    let is_conflict := decide (confidence > 0.3)
    let conflict_type :=
      if reasons3.isEmpty then "" else String.intercalate ", " reasons3
  (is_conflict, confidence, conflict_type)

/-- Embeds `ConflictMediator`: `Instant`s become integer timestamps (in
seconds), the two `DashMap`s become `Option`-valued maps over channel ids,
and `mediation_cooldown` is stored in seconds. -/
structure ConflictMediator where
  channel_interventions : String → Option Int
  max_interventions_per_hour : Nat
  mediation_cooldown : Int
  hourly_counts : String → Option (List Int)

/-- Point update of an `Option`-valued map. -/
def mapUpdate {α : Type} (f : String → Option α) (k : String) (v : Option α) :
    String → Option α :=
  fun c => if c = k then v else f c

/-- Embeds `ConflictMediator::new`. -/
def ConflictMediator.new (max_interventions_per_hour : Nat)
    (cooldown_minutes : Nat) : ConflictMediator :=
  ⟨fun _ => none, max_interventions_per_hour, (cooldown_minutes : Int) * 60,
    fun _ => none⟩

/-- Embeds `ConflictMediator::can_intervene` at time `now`; the laziness of
the source (the `entry(...).or_insert_with(Vec::new)` plus `retain`) makes
the method mutate `hourly_counts`, so the new state is returned as well. -/
def cooldown_check (m : ConflictMediator) (channel_id : String)
    (now : Int) : Bool :=
  match m.channel_interventions channel_id with
  | some last_time => decide (now - last_time < m.mediation_cooldown)
  | none => false

/-- The hourly log after the lazy pruning of `can_intervene`: entries newer
than `now - 3600`, a missing channel meaning the freshly inserted empty log. -/
def pruned_log (m : ConflictMediator) (channel_id : String) (now : Int) :
    List Int :=
  ((m.hourly_counts channel_id).getD []).filter (fun time => now - 3600 < time)

def ConflictMediator.can_intervene (m : ConflictMediator) (channel_id : String)
    (now : Int) : Bool × ConflictMediator :=
  if cooldown_check m channel_id now then (false, m)
  else
    (decide ((pruned_log m channel_id now).length < m.max_interventions_per_hour),
      { m with
        hourly_counts :=
          mapUpdate m.hourly_counts channel_id (some (pruned_log m channel_id now)) })

/-- Embeds `ConflictMediator::record_intervention` at time `now`. -/
def ConflictMediator.record_intervention (m : ConflictMediator)
    (channel_id : String) (now : Int) : ConflictMediator :=
  { m with
    channel_interventions := mapUpdate m.channel_interventions channel_id (some now),
    hourly_counts :=
      mapUpdate m.hourly_counts channel_id
        (some (((m.hourly_counts channel_id).getD []) ++ [now])) }

/-- Embeds the `MediationStats` struct; `minutes_since_last_intervention`
keeps the `u64::MAX` sentinel of the source for a never-mediated channel. -/
structure MediationStats where
  interventions_last_hour : Nat
  minutes_since_last_intervention : Int
  can_intervene : Bool
  cooldown_minutes_remaining : Int

/-- Embeds `ConflictMediator::get_channel_stats` at time `now`; it calls
`can_intervene`, whose state is returned alongside the stats. -/
def ConflictMediator.get_channel_stats (m : ConflictMediator)
    (channel_id : String) (now : Int) : MediationStats × ConflictMediator :=
  let one_hour_ago := now - 3600
  let interventions_last_hour :=
    match m.hourly_counts channel_id with
    | some times => (times.filter (fun t => one_hour_ago < t)).length
    | none => 0
  let minutes_since_last :=
    match m.channel_interventions channel_id with
    | some time => (now - time) / 60
    | none => (18446744073709551615 : Int)
  let result := m.can_intervene channel_id now
  let cooldown_minutes_remaining :=
    if result.1 then 0
    else
      let elapsed :=
        match m.channel_interventions channel_id with
        | some t => now - t
        | none => 0
      if elapsed < m.mediation_cooldown then (m.mediation_cooldown - elapsed) / 60
      else 0
  (⟨interventions_last_hour, minutes_since_last, result.1,
      cooldown_minutes_remaining⟩,
    result.2)

/-- Embeds `ConflictMediator::reset_channel`. -/
def ConflictMediator.reset_channel (m : ConflictMediator)
    (channel_id : String) : ConflictMediator :=
  { m with
    channel_interventions := mapUpdate m.channel_interventions channel_id none,
    hourly_counts := mapUpdate m.hourly_counts channel_id none }

/-- The MEDIATION_RESPONSES pool of src/conflict_mediator.rs. -/
def MEDIATION_RESPONSES : List String := [
  "From a certain point of view, you're both correct. Perspective is everything, my friends.",
  "Perhaps we might pause and consider that both viewpoints have merit worth examining.",
  "I've found that the wisest path often lies in understanding the other's position first.",
  "It appears this matter requires a touch of patience and diplomacy.",
  "Sometimes the greatest strength is in acknowledging the other's point, however different from our own.",
  "There may be more common ground here than appears at first glance.",
  "Ah, I sense tension in the Force. Perhaps a moment of reflection would serve us all well.",
  "In my experience, the truth is often found somewhere between two opposing views.",
  "The ability to disagree without hostility is the mark of true wisdom.",
  "I'm reminded of a lesson from my master: listening is often more powerful than speaking."]

/-- The RAPID_EXCHANGE_RESPONSES pool of src/conflict_mediator.rs. -/
def RAPID_EXCHANGE_RESPONSES : List String := [
  "From what I observe, this conversation has become rather... animated. Perhaps a brief pause would help?",
  "I sense we're moving quickly here. Sometimes haste leads us away from understanding."]

/-- The HOSTILE_LANGUAGE_RESPONSES pool of src/conflict_mediator.rs. -/
def HOSTILE_LANGUAGE_RESPONSES : List String := [
  "Now, now. I've found that words chosen in anger rarely reflect our true intentions.",
  "Perhaps we could choose our words more carefully? Even in disagreement, respect serves us well."]

/-- The ESCALATING_TENSION_RESPONSES pool of src/conflict_mediator.rs. -/
def ESCALATING_TENSION_RESPONSES : List String := [
  "I notice tensions rising. This is the time for calm heads and open minds, my friends.",
  "Before this escalates further, might I suggest we all take a step back?"]

/-- The response pool `get_mediation_response` selects from: the source's
`contains` chain over the conflict-type string. -/
def selected_response_pool (conflict_type : String) : List String :=
  if containsSub conflict_type.data "hostile_language".data then
    HOSTILE_LANGUAGE_RESPONSES
  else if containsSub conflict_type.data "rapid_exchange".data then
    RAPID_EXCHANGE_RESPONSES
  else if containsSub conflict_type.data "escalating_tension".data then
    ESCALATING_TENSION_RESPONSES
  else MEDIATION_RESPONSES

/-- Embeds `ConflictMediator::get_mediation_response`; the `rand::rng()`
source becomes an arbitrary seed `r`, `rng.random_range(0..len)` becoming
`r % len`. -/
def get_mediation_response (conflict_type : String) (_confidence : ℚ)
    (r : Nat) : String :=
  let response_pool := selected_response_pool conflict_type
  response_pool.getD (r % response_pool.length) ""

/-! Helper lemmas about the scorer. -/

lemma gcs_nonneg (content : String) : 0 ≤ get_conflict_score content := by
  rw [get_conflict_score_def]
  refine le_min ?_ (by norm_num)
  have h1 : (0 : ℚ) ≤ min ((keyword_count content : ℚ) * 0.4) 0.8 :=
    le_min (by positivity) (by norm_num)
  have h2 : (0 : ℚ) ≤
      (if calculate_caps_percentage content > 0.2 then (0.3 : ℚ) else 0) := by
    split <;> norm_num
  have h3 : (0 : ℚ) ≤
      (if excessive_punctuation_match content.data then (0.2 : ℚ) else 0) := by
    split <;> norm_num
  have h4 : (0 : ℚ) ≤
      (if 2 ≤ caps_pattern_count content then (0.2 : ℚ) else 0) := by
    split <;> norm_num
  linarith

lemma gcs_le_one (content : String) : get_conflict_score content ≤ 1 := by
  rw [get_conflict_score_def]
  exact min_le_right _ _

lemma count_caps_runs_of_no_upper (l : List Char)
    (h : ∀ c ∈ l, c.isUpper = false) : count_caps_runs l 0 = 0 := by
  induction l with
  | nil => rfl
  | cons c rest ih =>
    unfold count_caps_runs
    rw [h c (List.mem_cons_self c rest)]
    simpa using ih (fun d hd => h d (List.mem_cons_of_mem c hd))

/-- C1 spec side: the keyword contribution `K`. -/
def K_contribution (text : String) : ℚ :=
  min (0.4 * (keyword_count text : ℚ)) 0.8

/-- C1 spec side: the shout-ratio contribution `C`. -/
def C_contribution (text : String) : ℚ :=
  if calculate_caps_percentage text > 0.2 then 0.3 else 0

/-- C1 spec side: the excessive-punctuation contribution `P`. -/
def P_contribution (text : String) : ℚ :=
  if excessive_punctuation_match text.data then 0.2 else 0

/-- C1 spec side: the shouting-words contribution `S`. -/
def S_contribution (text : String) : ℚ :=
  if 2 ≤ caps_pattern_count text then 0.2 else 0

/-- C1: for every input text, the hostility score returned by
`get_conflict_score` equals `min(1.0, K + C + P + S)` where `K` is
`min(0.4 * k, 0.8)` with `k` the number of hostile-keyword table entries
occurring as substrings of the lower-cased text (each entry counted at most
once), `C` is 0.3 when the uppercase-to-alphabetic ratio exceeds 0.2,
`P` is 0.2 on a run of three or more consecutive exclamation or question
marks, and `S` is 0.2 on two or more disjoint runs of five or more
consecutive uppercase letters. -/
theorem C1_score_decomposition (text : String) :
    get_conflict_score text =
      min 1 (K_contribution text + C_contribution text + P_contribution text
        + S_contribution text) := by
  rw [get_conflict_score_def]
  unfold K_contribution C_contribution P_contribution S_contribution
  rw [min_comm, mul_comm ((keyword_count text : ℚ)) 0.4]

/-- C7: every hostility score lies in `[0, 1]`; the empty message scores 0;
and a text with no alphabetic character, no matched hostile keyword and no
`[!?]{3,}` run scores exactly 0. -/
theorem C7_score_range (text : String)
    (hA : text.data.filter Char.isAlpha = [])
    (hK : keyword_count text = 0)
    (hP : excessive_punctuation_match text.data = false) :
    (∀ t : String, 0 ≤ get_conflict_score t ∧ get_conflict_score t ≤ 1)
    ∧ get_conflict_score "" = 0
    ∧ get_conflict_score text = 0 := by
  refine ⟨fun t => ⟨gcs_nonneg t, gcs_le_one t⟩, ?_, ?_⟩
  · rw [get_conflict_score_eval "" 0 false false false (by decide)
      (by rw [decide_eq_false_iff_not]
          unfold calculate_caps_percentage
          norm_num)
      (by decide) (by decide)]
    norm_num
  · have hcaps : calculate_caps_percentage text = 0 := by
      unfold calculate_caps_percentage
      simp [hA]
    have hup : ∀ c ∈ text.data, c.isUpper = false := by
      intro c hc
      have := List.filter_eq_nil_iff.mp hA c hc
      have halpha : c.isAlpha = false := by
        revert this
        cases c.isAlpha <;> simp
      revert halpha
      unfold Char.isAlpha
      cases c.isUpper <;> simp
    have hruns : caps_pattern_count text = 0 :=
      count_caps_runs_of_no_upper text.data hup
    rw [get_conflict_score_def, hK, hcaps, hP, hruns]
    norm_num

/-- Witness for C7 at the concrete text `"123"`. -/
theorem C7_score_range_witness : get_conflict_score "123" = 0 :=
  (C7_score_range "123" (by decide) (by decide) (by decide)).2.2

/-! Helper lemmas about the conversation analyzer. -/

lemma detect_confidence_eq (messages : List Msg) (w : Int) :
    (detect_heated_argument messages w).2.1 =
      if messages.length < 1 then 0
      else
        min ((detect_rapid_exchange messages w).getD 0
          + analyze_message_content messages
          + detect_escalation_pattern messages) 1 := by
  unfold detect_heated_argument
  split <;> rfl

lemma detect_is_conflict_eq (messages : List Msg) (w : Int) :
    (detect_heated_argument messages w).1 =
      decide ((detect_heated_argument messages w).2.1 > 0.3) := by
  unfold detect_heated_argument
  split
  · exact (decide_eq_false (by norm_num)).symm
  · rfl

lemma analyze_nonneg (messages : List Msg) :
    0 ≤ analyze_message_content messages := by
  unfold analyze_message_content
  apply div_nonneg
  · apply List.sum_nonneg
    intro x hx
    rcases List.mem_map.mp hx with ⟨m, _, rfl⟩
    exact gcs_nonneg _
  · positivity

lemma escalation_nonneg (messages : List Msg) :
    0 ≤ detect_escalation_pattern messages := by
  simp only [detect_escalation_pattern]
  split
  · exact le_refl 0
  · split
    · have h1 : (0 : ℚ) ≤
          (count_increasing (messages.map (fun m => get_conflict_score m.content)) : ℚ)
            / (((messages.map (fun m => get_conflict_score m.content)).length - 1 : Nat) : ℚ) := by
        positivity
      nlinarith
    · exact le_refl 0

lemma rapid_nonneg (messages : List Msg) (w : Int) (hw : 0 < w) :
    0 ≤ (detect_rapid_exchange messages w).getD 0 := by
  simp only [detect_rapid_exchange]
  split
  · simp
  split
  case isFalse => simp
  split
  case isFalse => simp
  split
  case h_2 => simp
  case h_1 first last hfirst hlast =>
    split
    case isFalse => simp
    case isTrue hd =>
      simp only [Option.getD_some]
      have hwq : (0 : ℚ) < (w : ℚ) := by exact_mod_cast hw
      have hdq : ((last - first : Int) : ℚ) ≤ (w : ℚ) := by exact_mod_cast hd
      have : ((last - first : Int) : ℚ) / (w : ℚ) ≤ 1 := (div_le_one hwq).mpr hdq
      nlinarith

/-- C2: for every message window and positive time window, the verdict of
`detect_heated_argument` satisfies `is_conflict = (confidence > 0.3)` (0.3
being the operative threshold hard-coded in the engine), and the confidence
is the sum of the rapid-exchange, hostile-language and escalating-tension
contributions clamped to `[0, 1]`, never negative. -/
theorem C2_verdict_invariant (messages : List Msg) (time_window_seconds : Int)
    (hw : 0 < time_window_seconds) :
    ((detect_heated_argument messages time_window_seconds).1 = true ↔
      (detect_heated_argument messages time_window_seconds).2.1 > 0.3)
    ∧ 0 ≤ (detect_heated_argument messages time_window_seconds).2.1
    ∧ (detect_heated_argument messages time_window_seconds).2.1 ≤ 1
    ∧ (detect_heated_argument messages time_window_seconds).2.1 =
        min 1 ((detect_rapid_exchange messages time_window_seconds).getD 0
          + analyze_message_content messages
          + detect_escalation_pattern messages) := by
  have hsum : 0 ≤ (detect_rapid_exchange messages time_window_seconds).getD 0
      + analyze_message_content messages + detect_escalation_pattern messages := by
    have h1 := rapid_nonneg messages time_window_seconds hw
    have h2 := analyze_nonneg messages
    have h3 := escalation_nonneg messages
    linarith
  refine ⟨?_, ?_, ?_, ?_⟩
  · rw [detect_is_conflict_eq]
    exact decide_eq_true_iff
  · rw [detect_confidence_eq]
    split
    · exact le_refl 0
    · exact le_min hsum (by norm_num)
  · rw [detect_confidence_eq]
    split
    · norm_num
    · exact min_le_right _ _
  · rw [detect_confidence_eq]
    split
    case isTrue h =>
      have hnil : messages = [] := by
        cases messages with
        | nil => rfl
        | cons a l => simp at h
      subst hnil
      have hr : (detect_rapid_exchange [] time_window_seconds).getD 0 = 0 := by
        simp [detect_rapid_exchange]
      have ha : analyze_message_content [] = 0 := by
        simp [analyze_message_content]
      have he : detect_escalation_pattern [] = 0 := by
        simp [detect_escalation_pattern]
      rw [hr, ha, he]
      norm_num
    case isFalse h => rw [min_comm]

/-- Witness for C2 at a one-message window and the default 120s time window. -/
theorem C2_verdict_invariant_witness :
    ((detect_heated_argument [⟨"user_a", "hello", "1000"⟩] 120).1 = true ↔
      (detect_heated_argument [⟨"user_a", "hello", "1000"⟩] 120).2.1 > 0.3)
    ∧ 0 ≤ (detect_heated_argument [⟨"user_a", "hello", "1000"⟩] 120).2.1
    ∧ (detect_heated_argument [⟨"user_a", "hello", "1000"⟩] 120).2.1 ≤ 1
    ∧ (detect_heated_argument [⟨"user_a", "hello", "1000"⟩] 120).2.1 =
        min 1 ((detect_rapid_exchange [⟨"user_a", "hello", "1000"⟩] 120).getD 0
          + analyze_message_content [⟨"user_a", "hello", "1000"⟩]
          + detect_escalation_pattern [⟨"user_a", "hello", "1000"⟩]) :=
  C2_verdict_invariant [⟨"user_a", "hello", "1000"⟩] 120 (by norm_num)

/-! Helper lemmas about the mediator. -/

lemma mapUpdate_same {α : Type} (f : String → Option α) (k : String)
    (v : Option α) : mapUpdate f k v k = v := by
  simp [mapUpdate]

lemma mapUpdate_ne {α : Type} (f : String → Option α) (k : String)
    (v : Option α) (c : String) (h : c ≠ k) : mapUpdate f k v c = f c := by
  simp [mapUpdate, h]

lemma mapUpdate_overwrite {α : Type} (f : String → Option α) (k : String)
    (v w : Option α) : mapUpdate (mapUpdate f k w) k v = mapUpdate f k v := by
  funext c
  unfold mapUpdate
  by_cases h : c = k <;> simp [h]

lemma filter_self_idem (p : Int → Bool) (l : List Int) :
    (l.filter p).filter p = l.filter p := by
  rw [List.filter_filter]
  congr 1
  funext a
  exact Bool.and_self (p a)

lemma can_intervene_state_ci (m : ConflictMediator) (ch : String) (now : Int) :
    (m.can_intervene ch now).2.channel_interventions = m.channel_interventions := by
  unfold ConflictMediator.can_intervene
  split <;> rfl

lemma can_intervene_state_max (m : ConflictMediator) (ch : String) (now : Int) :
    (m.can_intervene ch now).2.max_interventions_per_hour
      = m.max_interventions_per_hour := by
  unfold ConflictMediator.can_intervene
  split <;> rfl

lemma can_intervene_state_cd (m : ConflictMediator) (ch : String) (now : Int) :
    (m.can_intervene ch now).2.mediation_cooldown = m.mediation_cooldown := by
  unfold ConflictMediator.can_intervene
  split <;> rfl

lemma cooldown_check_state (m : ConflictMediator) (ch c : String) (now t : Int) :
    cooldown_check ((m.can_intervene c t).2) ch now = cooldown_check m ch now := by
  unfold cooldown_check
  rw [can_intervene_state_ci, can_intervene_state_cd]

lemma can_intervene_of_blocked (m : ConflictMediator) (ch : String) (now : Int)
    (hb : cooldown_check m ch now = true) :
    m.can_intervene ch now = (false, m) := by
  unfold ConflictMediator.can_intervene
  rw [if_pos hb]

lemma can_intervene_of_not_blocked (m : ConflictMediator) (ch : String)
    (now : Int) (hb : cooldown_check m ch now = false) :
    m.can_intervene ch now =
      (decide ((pruned_log m ch now).length < m.max_interventions_per_hour),
        { m with hourly_counts :=
            mapUpdate m.hourly_counts ch (some (pruned_log m ch now)) }) := by
  unfold ConflictMediator.can_intervene
  rw [hb]
  simp

lemma can_intervene_idem (m : ConflictMediator) (ch : String) (now : Int) :
    (m.can_intervene ch now).2.can_intervene ch now = m.can_intervene ch now := by
  cases hb : cooldown_check m ch now with
  | true =>
    rw [can_intervene_of_blocked m ch now hb]
    exact can_intervene_of_blocked m ch now hb
  | false =>
    rw [can_intervene_of_not_blocked m ch now hb]
    have hb2 : cooldown_check
        { m with hourly_counts :=
            mapUpdate m.hourly_counts ch (some (pruned_log m ch now)) } ch now
          = false := hb
    rw [can_intervene_of_not_blocked _ ch now hb2]
    have hpl2 : pruned_log
        { m with hourly_counts :=
            mapUpdate m.hourly_counts ch (some (pruned_log m ch now)) } ch now
          = pruned_log m ch now := by
      show ((mapUpdate m.hourly_counts ch (some (pruned_log m ch now)) ch).getD
        []).filter _ = pruned_log m ch now
      rw [mapUpdate_same, Option.getD_some]
      exact filter_self_idem _ _
    rw [hpl2]
    refine Prod.ext_iff.mpr ⟨rfl, ?_⟩
    show ConflictMediator.mk _ _ _
        (mapUpdate (mapUpdate m.hourly_counts ch (some (pruned_log m ch now))) ch
          (some (pruned_log m ch now))) = _
    rw [mapUpdate_overwrite]

/-- C3 spec side: the cooldown is active when a last intervention exists and
`now - last_intervention < cooldown_duration`. -/
def cooldown_active (m : ConflictMediator) (channel_id : String) (now : Int) :
    Prop :=
  ∃ last, m.channel_interventions channel_id = some last
    ∧ now - last < m.mediation_cooldown

/-- C3 spec side: the hourly log pruned to entries with `now - entry < 3600`. -/
def spec_pruned_log (m : ConflictMediator) (channel_id : String) (now : Int) :
    List Int :=
  ((m.hourly_counts channel_id).getD []).filter
    (fun entry => decide (now - entry < 3600))

lemma cooldown_check_iff (m : ConflictMediator) (ch : String) (now : Int) :
    cooldown_check m ch now = true ↔ cooldown_active m ch now := by
  unfold cooldown_check cooldown_active
  cases h : m.channel_interventions ch with
  | none => simp
  | some last => simp [h]

lemma pruned_log_eq_spec (m : ConflictMediator) (ch : String) (now : Int) :
    pruned_log m ch now = spec_pruned_log m ch now := by
  unfold pruned_log spec_pruned_log
  apply List.filter_congr
  intro a _
  simp only [decide_eq_decide]
  omega

/-- C3: `can_intervene` returns false while the cooldown is active; otherwise
it returns true exactly when the hourly log pruned to the last 3600 seconds
is shorter than `max_interventions_per_hour`. In particular with
`max_interventions_per_hour = 2` and zero cooldown, after two recorded
interventions within the hour it returns false. -/
theorem C3_can_intervene_policy (m : ConflictMediator) (channel_id : String)
    (now : Int) :
    (cooldown_active m channel_id now →
      (m.can_intervene channel_id now).1 = false)
    ∧ (¬ cooldown_active m channel_id now →
        ((m.can_intervene channel_id now).1 = true ↔
          (spec_pruned_log m channel_id now).length
            < m.max_interventions_per_hour))
    ∧ ∀ t1 t2 : Int, t2 ≤ now → now - t1 < 3600 → now - t2 < 3600 →
        (ConflictMediator.can_intervene
          (ConflictMediator.record_intervention
            (ConflictMediator.record_intervention (ConflictMediator.new 2 0)
              channel_id t1) channel_id t2) channel_id now).1 = false := by
  refine ⟨?_, ?_, ?_⟩
  · intro h
    unfold ConflictMediator.can_intervene
    rw [if_pos ((cooldown_check_iff m channel_id now).mpr h)]
  · intro h
    unfold ConflictMediator.can_intervene
    rw [if_neg (fun hb => h ((cooldown_check_iff m channel_id now).mp hb))]
    rw [pruned_log_eq_spec]
    exact decide_eq_true_iff
  · intro t1 t2 h2 h3 h4
    have hci : (ConflictMediator.record_intervention
        (ConflictMediator.record_intervention (ConflictMediator.new 2 0)
          channel_id t1) channel_id t2).channel_interventions channel_id
        = some t2 := by
      simp [ConflictMediator.record_intervention, mapUpdate]
    have hcd : (ConflictMediator.record_intervention
        (ConflictMediator.record_intervention (ConflictMediator.new 2 0)
          channel_id t1) channel_id t2).mediation_cooldown = 0 := by
      simp [ConflictMediator.record_intervention, ConflictMediator.new]
    have hhc : (ConflictMediator.record_intervention
        (ConflictMediator.record_intervention (ConflictMediator.new 2 0)
          channel_id t1) channel_id t2).hourly_counts channel_id
        = some [t1, t2] := by
      simp [ConflictMediator.record_intervention, ConflictMediator.new, mapUpdate]
    have hbf : cooldown_check (ConflictMediator.record_intervention
        (ConflictMediator.record_intervention (ConflictMediator.new 2 0)
          channel_id t1) channel_id t2) channel_id now = false := by
      unfold cooldown_check
      rw [hci, hcd]
      simp
      omega
    rw [can_intervene_of_not_blocked _ channel_id now hbf]
    show decide ((pruned_log (ConflictMediator.record_intervention
        (ConflictMediator.record_intervention (ConflictMediator.new 2 0)
          channel_id t1) channel_id t2) channel_id now).length < _) = false
    unfold pruned_log
    rw [hhc, Option.getD_some]
    have hf : [t1, t2].filter (fun time => now - 3600 < time) = [t1, t2] := by
      have e1 : (decide (now - 3600 < t1)) = true := decide_eq_true (by omega)
      have e2 : (decide (now - 3600 < t2)) = true := decide_eq_true (by omega)
      simp [List.filter, e1, e2]
    rw [hf]
    have hmax : (ConflictMediator.record_intervention
        (ConflictMediator.record_intervention (ConflictMediator.new 2 0)
          channel_id t1) channel_id t2).max_interventions_per_hour = 2 := rfl
    rw [hmax]
    rfl

/-- Witness for C3's concrete mediation-policy scenario. -/
theorem C3_can_intervene_policy_witness :
    (ConflictMediator.can_intervene
      (ConflictMediator.record_intervention
        (ConflictMediator.record_intervention (ConflictMediator.new 2 0)
          "general" 0) "general" 1) "general" 2).1 = false :=
  (C3_can_intervene_policy
    ((ConflictMediator.new 2 0).record_intervention "general" 0) "general" 2).2.2
    0 1 (by norm_num) (by norm_num) (by norm_num)

/-- C4 fails as stated: `get_channel_stats` does mutate the mediator. After
one intervention at time 0, a stats call at time 4000 lazily prunes the
hourly log of the channel from `[0]` to `[]`. -/
theorem C4_counterexample :
    ¬ ((ConflictMediator.get_channel_stats
          ((ConflictMediator.new 3 5).record_intervention "general" 0)
          "general" 4000).2.hourly_counts "general"
        = (((ConflictMediator.new 3 5).record_intervention
            "general" 0).hourly_counts "general")) := by
  decide

lemma stats_state_eq (m : ConflictMediator) (ch : String) (now : Int) :
    (m.get_channel_stats ch now).2 = (m.can_intervene ch now).2 := rfl

lemma stats_fst_congr (m1 m2 : ConflictMediator) (ch : String) (now : Int)
    (hci : m1.channel_interventions ch = m2.channel_interventions ch)
    (hcd : m1.mediation_cooldown = m2.mediation_cooldown)
    (hcount : (match m1.hourly_counts ch with
        | some times => (times.filter (fun t => now - 3600 < t)).length
        | none => 0)
      = (match m2.hourly_counts ch with
        | some times => (times.filter (fun t => now - 3600 < t)).length
        | none => 0))
    (hcan : (m1.can_intervene ch now).1 = (m2.can_intervene ch now).1) :
    (m1.get_channel_stats ch now).1 = (m2.get_channel_stats ch now).1 := by
  unfold ConflictMediator.get_channel_stats
  simp only [hci, hcd, hcount, hcan]

/-- C4, amended: `get_channel_stats` leaves `channel_interventions` (and the
configuration) untouched; its only effect on `hourly_counts` is exactly the
lazy pruning its internal `can_intervene` call performs; and it is
idempotent — an immediately repeated stats call returns the same statistics
and changes nothing further. -/
theorem C4_stats_frame (m : ConflictMediator) (channel_id : String) (now : Int) :
    (m.get_channel_stats channel_id now).2.channel_interventions
        = m.channel_interventions
    ∧ (m.get_channel_stats channel_id now).2.max_interventions_per_hour
        = m.max_interventions_per_hour
    ∧ (m.get_channel_stats channel_id now).2.mediation_cooldown
        = m.mediation_cooldown
    ∧ (m.get_channel_stats channel_id now).2 = (m.can_intervene channel_id now).2
    ∧ (m.get_channel_stats channel_id now).2.get_channel_stats channel_id now
        = m.get_channel_stats channel_id now := by
  refine ⟨?_, ?_, ?_, rfl, ?_⟩
  · rw [stats_state_eq]
    exact can_intervene_state_ci m channel_id now
  · rw [stats_state_eq]
    exact can_intervene_state_max m channel_id now
  · rw [stats_state_eq]
    exact can_intervene_state_cd m channel_id now
  by_cases hb : cooldown_check m channel_id now
  · have h2 : (m.get_channel_stats channel_id now).2 = m := by
      rw [stats_state_eq]
      rw [can_intervene_of_blocked m channel_id now hb]
    rw [h2]
  · have h2 : (m.get_channel_stats channel_id now).2.hourly_counts channel_id
        = some (pruned_log m channel_id now) := by
      rw [stats_state_eq, can_intervene_of_not_blocked m channel_id now
        (Bool.eq_false_iff.mpr hb)]
      exact mapUpdate_same _ _ _
    refine Prod.ext_iff.mpr ⟨?_, ?_⟩
    · apply stats_fst_congr
      · rw [stats_state_eq]
        exact congrFun (can_intervene_state_ci m channel_id now) channel_id
      · rw [stats_state_eq]
        exact can_intervene_state_cd m channel_id now
      · rw [h2]
        have hidem : (pruned_log m channel_id now).filter
            (fun t => decide (now - 3600 < t)) = pruned_log m channel_id now := by
          unfold pruned_log
          exact filter_self_idem _ _
        show ((pruned_log m channel_id now).filter
            (fun t => decide (now - 3600 < t))).length = _
        rw [hidem]
        unfold pruned_log
        cases hhc : m.hourly_counts channel_id with
        | none => simp
        | some times => simp
      · rw [stats_state_eq]
        exact congrArg Prod.fst (can_intervene_idem m channel_id now)
    · rw [stats_state_eq, stats_state_eq]
      exact congrArg Prod.snd (can_intervene_idem m channel_id now)

/-- C5: `can_intervene` is idempotent without an intervening
`record_intervention`: a second call at the same time returns the same
boolean and leaves the state exactly as the first call left it. -/
theorem C5_can_intervene_idempotent (m : ConflictMediator) (channel_id : String)
    (now : Int) :
    ((m.can_intervene channel_id now).2.can_intervene channel_id now).1
        = (m.can_intervene channel_id now).1
    ∧ ((m.can_intervene channel_id now).2.can_intervene channel_id now).2
        = (m.can_intervene channel_id now).2 :=
  ⟨congrArg Prod.fst (can_intervene_idem m channel_id now),
    congrArg Prod.snd (can_intervene_idem m channel_id now)⟩

/-! Machinery for C8: arbitrary operation sequences on a mediator. -/

/-- An operation of the mediator's public interface. -/
inductive MedOp where
  | check (channel_id : String) (now : Int)
  | record (channel_id : String) (now : Int)
  | stats (channel_id : String) (now : Int)
  | reset (channel_id : String)

/-- The state after one mediator operation. -/
def applyOp (m : ConflictMediator) : MedOp → ConflictMediator
  | MedOp.check ch now => (m.can_intervene ch now).2
  | MedOp.record ch now => m.record_intervention ch now
  | MedOp.stats ch now => (m.get_channel_stats ch now).2
  | MedOp.reset ch => m.reset_channel ch

/-- The state after a sequence of mediator operations. -/
def applyOps (m : ConflictMediator) (ops : List MedOp) : ConflictMediator :=
  ops.foldl applyOp m

/-- Whether an operation is a `record_intervention` on the given channel. -/
def recordsChannel (channel_id : String) : MedOp → Prop
  | MedOp.record ch _ => ch = channel_id
  | _ => False

/-- A channel on which no intervention was ever recorded: no last
intervention, and an absent or empty hourly log. -/
def freshChannel (m : ConflictMediator) (channel_id : String) : Prop :=
  m.channel_interventions channel_id = none
    ∧ (m.hourly_counts channel_id).getD [] = []

lemma fresh_new (mx cd : Nat) (channel_id : String) :
    freshChannel (ConflictMediator.new mx cd) channel_id := ⟨rfl, rfl⟩

lemma fresh_can_state (m : ConflictMediator) (ch : String) (now : Int)
    (channel_id : String) (hm : freshChannel m channel_id) :
    freshChannel (m.can_intervene ch now).2 channel_id := by
  obtain ⟨h1, h2⟩ := hm
  cases hb : cooldown_check m ch now with
  | true =>
    rw [can_intervene_of_blocked m ch now hb]
    exact ⟨h1, h2⟩
  | false =>
    rw [can_intervene_of_not_blocked m ch now hb]
    refine ⟨h1, ?_⟩
    by_cases hc : channel_id = ch
    · subst hc
      show (mapUpdate m.hourly_counts channel_id
        (some (pruned_log m channel_id now)) channel_id).getD [] = []
      rw [mapUpdate_same, Option.getD_some]
      unfold pruned_log
      rw [h2]
      rfl
    · show (mapUpdate m.hourly_counts ch
        (some (pruned_log m ch now)) channel_id).getD [] = []
      rw [mapUpdate_ne _ _ _ _ hc]
      exact h2

lemma fresh_applyOp (m : ConflictMediator) (op : MedOp) (channel_id : String)
    (hm : freshChannel m channel_id) (hop : ¬ recordsChannel channel_id op) :
    freshChannel (applyOp m op) channel_id := by
  obtain ⟨h1, h2⟩ := hm
  cases op with
  | check ch now => exact fresh_can_state m ch now channel_id ⟨h1, h2⟩
  | stats ch now => exact fresh_can_state m ch now channel_id ⟨h1, h2⟩
  | record ch now =>
    have hne : channel_id ≠ ch := fun h => hop h.symm
    constructor
    · show mapUpdate m.channel_interventions ch (some now) channel_id = none
      rw [mapUpdate_ne _ _ _ _ hne]
      exact h1
    · show (mapUpdate m.hourly_counts ch
        (some (((m.hourly_counts ch).getD []) ++ [now])) channel_id).getD [] = []
      rw [mapUpdate_ne _ _ _ _ hne]
      exact h2
  | reset ch =>
    by_cases hc : channel_id = ch
    · subst hc
      constructor
      · show mapUpdate m.channel_interventions channel_id none channel_id = none
        rw [mapUpdate_same]
      · show (mapUpdate m.hourly_counts channel_id none channel_id).getD [] = []
        rw [mapUpdate_same]
        rfl
    · constructor
      · show mapUpdate m.channel_interventions ch none channel_id = none
        rw [mapUpdate_ne _ _ _ _ hc]
        exact h1
      · show (mapUpdate m.hourly_counts ch none channel_id).getD [] = []
        rw [mapUpdate_ne _ _ _ _ hc]
        exact h2

lemma fresh_applyOps (ops : List MedOp) (m : ConflictMediator)
    (channel_id : String) (hm : freshChannel m channel_id)
    (hops : ∀ op ∈ ops, ¬ recordsChannel channel_id op) :
    freshChannel (applyOps m ops) channel_id := by
  induction ops generalizing m with
  | nil => exact hm
  | cons op rest ih =>
    exact ih (applyOp m op)
      (fresh_applyOp m op channel_id hm
        (hops op (List.mem_cons_self op rest)))
      (fun o ho => hops o (List.mem_cons_of_mem op ho))

lemma applyOp_max (m : ConflictMediator) (op : MedOp) :
    (applyOp m op).max_interventions_per_hour = m.max_interventions_per_hour := by
  cases op with
  | check ch now => exact can_intervene_state_max m ch now
  | stats ch now => exact can_intervene_state_max m ch now
  | record ch now => rfl
  | reset ch => rfl

lemma applyOps_max (ops : List MedOp) (m : ConflictMediator) :
    (applyOps m ops).max_interventions_per_hour
      = m.max_interventions_per_hour := by
  induction ops generalizing m with
  | nil => rfl
  | cons op rest ih => exact (ih (applyOp m op)).trans (applyOp_max m op)

lemma fresh_can_intervene (m : ConflictMediator) (channel_id : String)
    (now : Int) (hm : freshChannel m channel_id)
    (hmax : 1 ≤ m.max_interventions_per_hour) :
    (m.can_intervene channel_id now).1 = true := by
  obtain ⟨h1, h2⟩ := hm
  have hb : cooldown_check m channel_id now = false := by
    unfold cooldown_check
    rw [h1]
  rw [can_intervene_of_not_blocked m channel_id now hb]
  show decide ((pruned_log m channel_id now).length
    < m.max_interventions_per_hour) = true
  unfold pruned_log
  rw [h2]
  simp only [List.filter_nil, List.length_nil, decide_eq_true_eq]
  omega

/-- C8 fails as stated over every configuration: with
`max_interventions_per_hour = 0` even a completely fresh channel is denied. -/
theorem C8_counterexample :
    ((ConflictMediator.new 0 0).can_intervene "general" 0).1 = false := by
  decide

/-- C8, amended to configurations with `max_interventions_per_hour ≥ 1`:
for every cooldown, every operation sequence containing no
`record_intervention` on the channel, and every time, `can_intervene`
returns true on that channel. -/
theorem C8_fresh_channel (max_per_hour cooldown_minutes : Nat)
    (ops : List MedOp) (channel_id : String) (now : Int)
    (hmax : 1 ≤ max_per_hour)
    (hops : ∀ op ∈ ops, ¬ recordsChannel channel_id op) :
    (ConflictMediator.can_intervene
      (applyOps (ConflictMediator.new max_per_hour cooldown_minutes) ops)
      channel_id now).1 = true := by
  apply fresh_can_intervene
  · exact fresh_applyOps ops _ channel_id
      (fresh_new max_per_hour cooldown_minutes channel_id) hops
  · rw [applyOps_max]
    exact hmax

/-- Witness for C8's amended statement: one intervention on another channel,
then a fresh channel is still allowed. -/
theorem C8_fresh_channel_witness :
    (ConflictMediator.can_intervene
      (applyOps (ConflictMediator.new 1 0) [MedOp.record "other" 5])
      "general" 0).1 = true :=
  C8_fresh_channel 1 0 [MedOp.record "other" 5] "general" 0 (by norm_num)
    (by
      intro op hop
      rw [List.mem_singleton] at hop
      subst hop
      exact fun h => absurd (show ("other" : String) = "general" from h)
        (by decide))

/-- C9: the fallback response selection is total: for every conflict-type
string, confidence and random draw, `get_mediation_response` returns a
non-empty string belonging to the pool selected by the conflict type
(hostile-language, rapid-exchange, escalating-tension, or the generic
default pool). -/
theorem C9_fallback_selection (conflict_type : String) (confidence : ℚ)
    (r : Nat) :
    get_mediation_response conflict_type confidence r
        ∈ selected_response_pool conflict_type
    ∧ get_mediation_response conflict_type confidence r ≠ "" := by
  have hne : selected_response_pool conflict_type ≠ []
      ∧ ∀ x ∈ selected_response_pool conflict_type, x ≠ "" := by
    unfold selected_response_pool
    split
    · exact ⟨by decide, by decide⟩
    split
    · exact ⟨by decide, by decide⟩
    split
    · exact ⟨by decide, by decide⟩
    · exact ⟨by decide, by decide⟩
  have hlen : 0 < (selected_response_pool conflict_type).length :=
    List.length_pos.mpr hne.1
  have hlt : r % (selected_response_pool conflict_type).length
      < (selected_response_pool conflict_type).length :=
    Nat.mod_lt _ hlen
  unfold get_mediation_response
  rw [List.getD_eq_getElem?_getD, List.getElem?_eq_getElem hlt,
    Option.getD_some]
  exact ⟨List.getElem_mem hlt, hne.2 _ (List.getElem_mem hlt)⟩

/-- The conflict-type string of a verdict, unfolded. -/
lemma detect_type_eq (messages : List Msg) (w : Int) :
    (detect_heated_argument messages w).2.2 =
      if messages.length < 1 then ""
      else
        (let reasons : List String :=
          (match detect_rapid_exchange messages w with
            | some s => if s > 0.3 then ["rapid_exchange"] else []
            | none => [])
          ++ (if analyze_message_content messages > 0.4 then
              ["hostile_language"] else [])
          ++ (if detect_escalation_pattern messages > 0.3 then
              ["escalating_tension"] else []);
        if reasons.isEmpty then "" else String.intercalate ", " reasons) := by
  unfold detect_heated_argument
  split <;> rfl

/-- C10: a window whose first or last timestamp string fails to parse as a
64-bit signed integer gets no rapid-exchange contribution: that sub-analysis
yields `None`, the reason string never mentions rapid_exchange, and the
verdict is computed from the hostile-language and escalation analyses
alone, with the usual threshold rule. -/
theorem C10_unparsable_timestamp (messages : List Msg) (w : Int)
    (hbad : messages.head?.bind (fun m => parse_i64 m.timestamp) = none
      ∨ messages.getLast?.bind (fun m => parse_i64 m.timestamp) = none) :
    detect_rapid_exchange messages w = none
    ∧ (detect_heated_argument messages w).2.1 =
        (if messages.length < 1 then 0
         else min (analyze_message_content messages
           + detect_escalation_pattern messages) 1)
    ∧ containsSub (detect_heated_argument messages w).2.2.data
        "rapid_exchange".data = false
    ∧ ((detect_heated_argument messages w).1 = true ↔
        (detect_heated_argument messages w).2.1 > 0.3) := by
  have hrapid : detect_rapid_exchange messages w = none := by
    simp only [detect_rapid_exchange]
    split
    · rfl
    split
    case isFalse => rfl
    split
    case isFalse => rfl
    split
    case h_2 => rfl
    case h_1 first last hfirst hlast =>
      rcases hbad with hb | hb
      · rw [hb] at hfirst
        cases hfirst
      · rw [hb] at hlast
        cases hlast
  refine ⟨hrapid, ?_, ?_, ?_⟩
  · rw [detect_confidence_eq, hrapid]
    simp only [Option.getD_none, zero_add]
  · rw [detect_type_eq, hrapid]
    split
    · decide
    · by_cases hc : analyze_message_content messages > 0.4 <;>
        by_cases he : detect_escalation_pattern messages > 0.3 <;>
        simp only [hc, he, if_true, if_false] <;>
        decide
  · rw [detect_is_conflict_eq]
    exact decide_eq_true_iff

/-- Witness for C10: four rapid alternating messages whose timestamps are
all the unparsable string "oops". -/
theorem C10_unparsable_timestamp_witness :
    detect_rapid_exchange [⟨"user_a", "hi", "oops"⟩, ⟨"user_b", "ok", "oops"⟩,
        ⟨"user_a", "hm", "oops"⟩, ⟨"user_b", "no", "oops"⟩] 120 = none
    ∧ (detect_heated_argument [⟨"user_a", "hi", "oops"⟩, ⟨"user_b", "ok", "oops"⟩,
        ⟨"user_a", "hm", "oops"⟩, ⟨"user_b", "no", "oops"⟩] 120).2.1 =
        (if ([⟨"user_a", "hi", "oops"⟩, ⟨"user_b", "ok", "oops"⟩,
            ⟨"user_a", "hm", "oops"⟩, ⟨"user_b", "no", "oops"⟩] : List Msg).length < 1
         then 0
         else min (analyze_message_content [⟨"user_a", "hi", "oops"⟩,
             ⟨"user_b", "ok", "oops"⟩, ⟨"user_a", "hm", "oops"⟩,
             ⟨"user_b", "no", "oops"⟩]
           + detect_escalation_pattern [⟨"user_a", "hi", "oops"⟩,
             ⟨"user_b", "ok", "oops"⟩, ⟨"user_a", "hm", "oops"⟩,
             ⟨"user_b", "no", "oops"⟩]) 1)
    ∧ containsSub (detect_heated_argument [⟨"user_a", "hi", "oops"⟩,
        ⟨"user_b", "ok", "oops"⟩, ⟨"user_a", "hm", "oops"⟩,
        ⟨"user_b", "no", "oops"⟩] 120).2.2.data "rapid_exchange".data = false
    ∧ ((detect_heated_argument [⟨"user_a", "hi", "oops"⟩, ⟨"user_b", "ok", "oops"⟩,
        ⟨"user_a", "hm", "oops"⟩, ⟨"user_b", "no", "oops"⟩] 120).1 = true ↔
        (detect_heated_argument [⟨"user_a", "hi", "oops"⟩, ⟨"user_b", "ok", "oops"⟩,
          ⟨"user_a", "hm", "oops"⟩, ⟨"user_b", "no", "oops"⟩] 120).2.1 > 0.3) :=
  C10_unparsable_timestamp
    [⟨"user_a", "hi", "oops"⟩, ⟨"user_b", "ok", "oops"⟩,
      ⟨"user_a", "hm", "oops"⟩, ⟨"user_b", "no", "oops"⟩] 120
    (Or.inl (by decide))

/-! C6: the six-message profanity scenario. -/

/-- The six-message profanity test set, alternating authors, timestamps
spanning 5 seconds. -/
def six_messages : List Msg := [
  ⟨"user_a", "fuck you", "1000"⟩,
  ⟨"user_b", "this is fucking stupid", "1001"⟩,
  ⟨"user_a", "you're full of shit", "1002"⟩,
  ⟨"user_b", "you're an asshole", "1003"⟩,
  ⟨"user_a", "nobody asked", "1004"⟩,
  ⟨"user_b", "you're retarded", "1005"⟩]

lemma caps_decide_false (text : String)
    (h : ((text.data.filter Char.isAlpha).filter Char.isUpper).length = 0) :
    decide (calculate_caps_percentage text > 0.2) = false := by
  rw [decide_eq_false_iff_not]
  simp only [calculate_caps_percentage]
  split
  · norm_num
  · rw [h]
    norm_num

lemma six_score_1 : get_conflict_score "fuck you" = 0.4 := by
  rw [get_conflict_score_eval _ 1 false false false (by decide)
    (caps_decide_false _ (by decide)) (by decide) (by decide)]
  norm_num

lemma six_score_2 : get_conflict_score "this is fucking stupid" = 0.8 := by
  rw [get_conflict_score_eval _ 3 false false false (by decide)
    (caps_decide_false _ (by decide)) (by decide) (by decide)]
  norm_num

lemma six_score_3 : get_conflict_score "you're full of shit" = 0.8 := by
  rw [get_conflict_score_eval _ 2 false false false (by decide)
    (caps_decide_false _ (by decide)) (by decide) (by decide)]
  norm_num

lemma six_score_4 : get_conflict_score "you're an asshole" = 0.4 := by
  rw [get_conflict_score_eval _ 1 false false false (by decide)
    (caps_decide_false _ (by decide)) (by decide) (by decide)]
  norm_num

lemma six_score_5 : get_conflict_score "nobody asked" = 0.4 := by
  rw [get_conflict_score_eval _ 1 false false false (by decide)
    (caps_decide_false _ (by decide)) (by decide) (by decide)]
  norm_num

lemma six_score_6 : get_conflict_score "you're retarded" = 0.8 := by
  rw [get_conflict_score_eval _ 2 false false false (by decide)
    (caps_decide_false _ (by decide)) (by decide) (by decide)]
  norm_num

lemma six_content : analyze_message_content six_messages = 0.6 := by
  unfold analyze_message_content six_messages
  simp only [List.map_cons, List.map_nil, List.sum_cons, List.sum_nil,
    List.length_cons, List.length_nil]
  rw [six_score_1, six_score_2, six_score_3, six_score_4, six_score_5,
    six_score_6]
  norm_num

lemma six_escalation : detect_escalation_pattern six_messages = 0 := by
  simp only [detect_escalation_pattern]
  split
  case isTrue h => exact absurd h (by decide)
  case isFalse h =>
    simp only [six_messages, List.map_cons, List.map_nil]
    rw [six_score_1, six_score_2, six_score_3, six_score_4, six_score_5,
      six_score_6]
    norm_num [count_increasing]

lemma six_rapid :
    detect_rapid_exchange six_messages 120 = some ((1 - (5 : ℚ) / 120) * 0.6) := by
  simp only [detect_rapid_exchange]
  split
  case isTrue h => exact absurd h (by decide)
  split
  case isFalse h => exact absurd (by decide) h
  split
  case isFalse h => exact absurd (by decide) h
  split
  case h_2 h => exact (h 1000 1005 (by decide) (by decide)).elim
  case h_1 first last hfirst hlast =>
    have e1 : (six_messages.head?.bind fun m => parse_i64 m.timestamp)
        = some 1000 := by decide
    have e2 : (six_messages.getLast?.bind fun m => parse_i64 m.timestamp)
        = some 1005 := by decide
    rw [e1] at hfirst
    rw [e2] at hlast
    injection hfirst with hfirst
    injection hlast with hlast
    subst hfirst hlast
    split
    case isFalse h => exact absurd (by decide) h
    case isTrue h =>
      congr 1

lemma six_confidence : (detect_heated_argument six_messages 120).2.1 = 1 := by
  rw [detect_confidence_eq]
  rw [if_neg (by decide : ¬ (six_messages.length < 1))]
  rw [six_rapid, six_content, six_escalation]
  rw [Option.getD_some]
  norm_num

lemma six_type : (detect_heated_argument six_messages 120).2.2
    = "rapid_exchange, hostile_language" := by
  rw [detect_type_eq]
  rw [if_neg (by decide : ¬ (six_messages.length < 1))]
  rw [six_rapid, six_content, six_escalation]
  have h1 : ((1 - (5 : ℚ) / 120) * 0.6) > 0.3 := by norm_num
  have h2 : (0.6 : ℚ) > 0.4 := by norm_num
  have h3 : ¬ ((0 : ℚ) > 0.3) := by norm_num
  simp only [h1, h2, h3, if_true, if_false, if_pos, if_neg]
  decide

/-- C6: on the six-message profanity window from alternating authors within
10 seconds, `detect_heated_argument` with a 120-second window flags a
conflict with confidence above 0.3 and a reason set containing
hostile_language. -/
theorem C6_profanity_scenario :
    (detect_heated_argument six_messages 120).1 = true
    ∧ (detect_heated_argument six_messages 120).2.1 > 0.3
    ∧ containsSub (detect_heated_argument six_messages 120).2.2.data
        "hostile_language".data = true := by
  refine ⟨?_, ?_, ?_⟩
  · rw [detect_is_conflict_eq, six_confidence]
    rw [decide_eq_true_eq]
    norm_num
  · rw [six_confidence]
    norm_num
  · rw [six_type]
    decide

end MuppetBot
